import Mathlib

/-!
Verification of the `excel_to_erpnext` browser client (`static/script.js`).

The module is a page controller: it renders HTML fragments by string
concatenation, keeps page-scoped state (uploaded rows, generated invoices,
the current validation session) and interprets JSON responses of six
backend endpoints.  The embedding below translates the relevant functions
into pure Lean functions:

* strings are `String` / `List Char`;
* JS template literals become string concatenation;
* DOM log side effects become explicit lists of `(message, category)`
  pairs returned by the handlers;
* response objects become structures whose optional fields are `Option`s;
* JS truthiness tests on strings (`if (!x)`) are modelled explicitly
  (`none` and the empty string are falsy).
-/

set_option maxRecDepth 40000

/-- The apostrophe character (U+0027). -/
def apos : Char := Char.ofNat 39

/-! ### String scanning primitives

`replaceChar` embeds a JS `String.prototype.replace(/c/g, rep)` call whose
pattern is one fixed character: every occurrence of `c` is replaced by
`rep`.  `replaceStr` embeds a global replace whose pattern is a fixed
literal string: the input is scanned left to right, at each position the
pattern is tested, a match emits the replacement and resumes after the
matched portion (the replacement itself is not rescanned), exactly like a
JS global literal replace. -/

/-- Literal-prefix test on character lists. -/
def isPre : List Char → List Char → Bool
  | [], _ => true
  | _ :: _, [] => false
  | p :: ps, c :: cs => p == c && isPre ps cs

/-- One global single-character replacement pass. -/
def replaceChar (c : Char) (rep : List Char) : List Char → List Char
  | [] => []
  | x :: rest => (if x = c then rep else [x]) ++ replaceChar c rep rest

/-- Left-to-right scanner for `replaceStr`.  The `Nat` argument counts
characters of a just-matched pattern that still have to be skipped. -/
def rgo (pat rep : List Char) : List Char → Nat → List Char
  | [], _ => []
  | _ :: rest, Nat.succ k => rgo pat rep rest k
  | c :: rest, 0 =>
    if isPre pat (c :: rest) then
      rep ++ rgo pat rep rest (pat.length - 1)
    else
      c :: rgo pat rep rest 0

/-- Global replacement of the literal pattern `pat` by `rep`. -/
def replaceStr (pat rep l : List Char) : List Char := rgo pat rep l 0

/-! ### `escapeHtml` (script.js lines 580–587)

```js
function escapeHtml(unsafe) {
  return unsafe
    .replace(/&/g, "&amp;")
    .replace(/</g, "&lt;")
    .replace(/>/g, "&gt;")
    .replace(/"/g, "&quot;")
    .replace(/'/g, "&#039;");
}
```
-/

/-- `escapeHtml` on character lists: the five global replacements in
source order (`&` first, then `<`, `>`, `"`, `'`). -/
def escapeHtmlL (l : List Char) : List Char :=
  replaceChar apos "&#039;".data
    (replaceChar '"' "&quot;".data
      (replaceChar '>' "&gt;".data
        (replaceChar '<' "&lt;".data
          (replaceChar '&' "&amp;".data l))))

/-- `escapeHtml` of the source. -/
def escapeHtml (s : String) : String := ⟨escapeHtmlL s.data⟩

/-- Modelled from the spec: "the escaped output, when the five
substitutions are reversed, reproduces the original text exactly".  The
reversal applies the five inverse substitutions in the reverse of the
escaping order: `&#039;` → `'` first, then `&quot;` → `"`, `&gt;` → `>`,
`&lt;` → `<`, and `&amp;` → `&` last. -/
def unescapeHtmlL (l : List Char) : List Char :=
  replaceStr "&amp;".data ['&']
    (replaceStr "&lt;".data ['<']
      (replaceStr "&gt;".data ['>']
        (replaceStr "&quot;".data ['"']
          (replaceStr "&#039;".data [apos] l))))

/-- String version of the spec-modelled reversal. -/
def unescapeHtml (s : String) : String := ⟨unescapeHtmlL s.data⟩

/-! ### Round-trip proof infrastructure

`escapeHtml` is shown equal to a single per-character expansion
(`chunks escChar`), and each inverse substitution peels one layer of the
expansion back off. -/

/-- Concatenation of per-character expansions. -/
def chunks (f : Char → List Char) : List Char → List Char
  | [] => []
  | x :: l => f x ++ chunks f l

/-- Per-character effect of the first replacement pass. -/
def escChar1 (x : Char) : List Char := if x = '&' then "&amp;".data else [x]

/-- Per-character effect of the first two replacement passes. -/
def escChar2 (x : Char) : List Char := if x = '<' then "&lt;".data else escChar1 x

/-- Per-character effect of the first three replacement passes. -/
def escChar3 (x : Char) : List Char := if x = '>' then "&gt;".data else escChar2 x

/-- Per-character effect of the first four replacement passes. -/
def escChar4 (x : Char) : List Char := if x = '"' then "&quot;".data else escChar3 x

/-- Per-character effect of all five replacement passes. -/
def escChar (x : Char) : List Char := if x = apos then "&#039;".data else escChar4 x

theorem replaceChar_append (c : Char) (rep : List Char) (a b : List Char) :
    replaceChar c rep (a ++ b) = replaceChar c rep a ++ replaceChar c rep b := by
  induction a with
  | nil => rfl
  | cons x t ih => simp [replaceChar, ih, List.append_assoc]

theorem replaceChar_chunks (c : Char) (rep : List Char) (f : Char → List Char)
    (l : List Char) :
    replaceChar c rep (chunks f l) = chunks (fun x => replaceChar c rep (f x)) l := by
  induction l with
  | nil => rfl
  | cons x t ih => simp [chunks, replaceChar_append, ih]

theorem chunks_congr {f g : Char → List Char} (h : ∀ x, f x = g x) (l : List Char) :
    chunks f l = chunks g l := by
  induction l with
  | nil => rfl
  | cons x t ih => simp [chunks, h x, ih]

theorem replaceChar_amp_eq (l : List Char) :
    replaceChar '&' "&amp;".data l = chunks escChar1 l := by
  induction l with
  | nil => rfl
  | cons x t ih => simp [replaceChar, chunks, escChar1, ih]

theorem escChar2_eq (x : Char) :
    replaceChar '<' "&lt;".data (escChar1 x) = escChar2 x := by
  by_cases h1 : x = '&'
  · subst h1; decide
  · by_cases h2 : x = '<'
    · subst h2; decide
    · simp [escChar1, escChar2, replaceChar, h1, h2]

theorem escChar3_eq (x : Char) :
    replaceChar '>' "&gt;".data (escChar2 x) = escChar3 x := by
  by_cases h1 : x = '&'
  · subst h1; decide
  · by_cases h2 : x = '<'
    · subst h2; decide
    · by_cases h3 : x = '>'
      · subst h3; decide
      · simp [escChar1, escChar2, escChar3, replaceChar, h1, h2, h3]

theorem escChar4_eq (x : Char) :
    replaceChar '"' "&quot;".data (escChar3 x) = escChar4 x := by
  by_cases h1 : x = '&'
  · subst h1; decide
  · by_cases h2 : x = '<'
    · subst h2; decide
    · by_cases h3 : x = '>'
      · subst h3; decide
      · by_cases h4 : x = '"'
        · subst h4; decide
        · simp [escChar1, escChar2, escChar3, escChar4, replaceChar, h1, h2, h3, h4]

theorem escChar_eq (x : Char) :
    replaceChar apos "&#039;".data (escChar4 x) = escChar x := by
  by_cases h1 : x = '&'
  · subst h1; decide
  · by_cases h2 : x = '<'
    · subst h2; decide
    · by_cases h3 : x = '>'
      · subst h3; decide
      · by_cases h4 : x = '"'
        · subst h4; decide
        · by_cases h5 : x = apos
          · subst h5; decide
          · simp [escChar1, escChar2, escChar3, escChar4, escChar, replaceChar,
              h1, h2, h3, h4, h5]

/-- The five sequential passes of `escapeHtml` amount to one
per-character expansion. -/
theorem escapeHtmlL_eq_chunks (l : List Char) : escapeHtmlL l = chunks escChar l := by
  unfold escapeHtmlL
  rw [replaceChar_amp_eq, replaceChar_chunks, chunks_congr escChar2_eq,
    replaceChar_chunks, chunks_congr escChar3_eq,
    replaceChar_chunks, chunks_congr escChar4_eq,
    replaceChar_chunks, chunks_congr escChar_eq]

theorem chunks_id (l : List Char) : chunks (fun x => [x]) l = l := by
  induction l with
  | nil => rfl
  | cons x t ih => simp [chunks, ih]

/-- Generic safe step: all five entity patterns start with `&`, so a
character different from `&` passes through a replacement scan. -/
theorem replaceStr_cons_ne (ps rep : List Char) (x : Char) (hx : ¬x = '&')
    (E : List Char) :
    replaceStr ('&' :: ps) rep (x :: E) = x :: replaceStr ('&' :: ps) rep E := by
  have hb : (('&' : Char) == x) = false := by
    simp only [beq_eq_false_iff_ne]
    exact fun h => hx h.symm
  simp [replaceStr, rgo, isPre, hb]

/-! Block-step facts: scanning an entity block distinct from the pattern
copies it unchanged, and scanning the pattern's own block replaces it.
All of them are definitional. -/

theorem blk5_amp (E : List Char) :
    replaceStr "&#039;".data [apos] ("&amp;".data ++ E) =
      "&amp;".data ++ replaceStr "&#039;".data [apos] E := rfl

theorem blk5_lt (E : List Char) :
    replaceStr "&#039;".data [apos] ("&lt;".data ++ E) =
      "&lt;".data ++ replaceStr "&#039;".data [apos] E := rfl

theorem blk5_gt (E : List Char) :
    replaceStr "&#039;".data [apos] ("&gt;".data ++ E) =
      "&gt;".data ++ replaceStr "&#039;".data [apos] E := rfl

theorem blk5_quot (E : List Char) :
    replaceStr "&#039;".data [apos] ("&quot;".data ++ E) =
      "&quot;".data ++ replaceStr "&#039;".data [apos] E := rfl

theorem blk5_apos (E : List Char) :
    replaceStr "&#039;".data [apos] ("&#039;".data ++ E) =
      apos :: replaceStr "&#039;".data [apos] E := rfl

theorem blk4_amp (E : List Char) :
    replaceStr "&quot;".data ['"'] ("&amp;".data ++ E) =
      "&amp;".data ++ replaceStr "&quot;".data ['"'] E := rfl

theorem blk4_lt (E : List Char) :
    replaceStr "&quot;".data ['"'] ("&lt;".data ++ E) =
      "&lt;".data ++ replaceStr "&quot;".data ['"'] E := rfl

theorem blk4_gt (E : List Char) :
    replaceStr "&quot;".data ['"'] ("&gt;".data ++ E) =
      "&gt;".data ++ replaceStr "&quot;".data ['"'] E := rfl

theorem blk4_quot (E : List Char) :
    replaceStr "&quot;".data ['"'] ("&quot;".data ++ E) =
      '"' :: replaceStr "&quot;".data ['"'] E := rfl

theorem blk3_amp (E : List Char) :
    replaceStr "&gt;".data ['>'] ("&amp;".data ++ E) =
      "&amp;".data ++ replaceStr "&gt;".data ['>'] E := rfl

theorem blk3_lt (E : List Char) :
    replaceStr "&gt;".data ['>'] ("&lt;".data ++ E) =
      "&lt;".data ++ replaceStr "&gt;".data ['>'] E := rfl

theorem blk3_gt (E : List Char) :
    replaceStr "&gt;".data ['>'] ("&gt;".data ++ E) =
      '>' :: replaceStr "&gt;".data ['>'] E := rfl

theorem blk2_amp (E : List Char) :
    replaceStr "&lt;".data ['<'] ("&amp;".data ++ E) =
      "&amp;".data ++ replaceStr "&lt;".data ['<'] E := rfl

theorem blk2_lt (E : List Char) :
    replaceStr "&lt;".data ['<'] ("&lt;".data ++ E) =
      '<' :: replaceStr "&lt;".data ['<'] E := rfl

theorem blk1_amp (E : List Char) :
    replaceStr "&amp;".data ['&'] ("&amp;".data ++ E) =
      '&' :: replaceStr "&amp;".data ['&'] E := rfl

/-- Undoing `&#039;` on fully escaped text. -/
theorem replaceStr_stage5 (l : List Char) :
    replaceStr "&#039;".data [apos] (chunks escChar l) = chunks escChar4 l := by
  induction l with
  | nil => rfl
  | cons x t ih =>
    by_cases h1 : x = '&'
    · subst h1
      rw [show chunks escChar ('&' :: t) = "&amp;".data ++ chunks escChar t from rfl,
        show chunks escChar4 ('&' :: t) = "&amp;".data ++ chunks escChar4 t from rfl,
        blk5_amp, ih]
    · by_cases h2 : x = '<'
      · subst h2
        rw [show chunks escChar ('<' :: t) = "&lt;".data ++ chunks escChar t from rfl,
          show chunks escChar4 ('<' :: t) = "&lt;".data ++ chunks escChar4 t from rfl,
          blk5_lt, ih]
      · by_cases h3 : x = '>'
        · subst h3
          rw [show chunks escChar ('>' :: t) = "&gt;".data ++ chunks escChar t from rfl,
            show chunks escChar4 ('>' :: t) = "&gt;".data ++ chunks escChar4 t from rfl,
            blk5_gt, ih]
        · by_cases h4 : x = '"'
          · subst h4
            rw [show chunks escChar ('"' :: t) = "&quot;".data ++ chunks escChar t from rfl,
              show chunks escChar4 ('"' :: t) = "&quot;".data ++ chunks escChar4 t from rfl,
              blk5_quot, ih]
          · by_cases h5 : x = apos
            · subst h5
              rw [show chunks escChar (apos :: t) = "&#039;".data ++ chunks escChar t from rfl,
                show chunks escChar4 (apos :: t) = apos :: chunks escChar4 t from rfl,
                blk5_apos, ih]
            · have hx : escChar x = [x] := by
                simp [escChar, escChar4, escChar3, escChar2, escChar1, h1, h2, h3, h4, h5]
              have hx4 : escChar4 x = [x] := by
                simp [escChar4, escChar3, escChar2, escChar1, h1, h2, h3, h4]
              rw [show chunks escChar (x :: t) = escChar x ++ chunks escChar t from rfl,
                show chunks escChar4 (x :: t) = escChar4 x ++ chunks escChar4 t from rfl,
                hx, hx4, List.singleton_append, List.singleton_append,
                replaceStr_cons_ne "#039;".data [apos] x h1, ih]

/-- Undoing `&quot;` after `&#039;` has been undone. -/
theorem replaceStr_stage4 (l : List Char) :
    replaceStr "&quot;".data ['"'] (chunks escChar4 l) = chunks escChar3 l := by
  induction l with
  | nil => rfl
  | cons x t ih =>
    by_cases h1 : x = '&'
    · subst h1
      rw [show chunks escChar4 ('&' :: t) = "&amp;".data ++ chunks escChar4 t from rfl,
        show chunks escChar3 ('&' :: t) = "&amp;".data ++ chunks escChar3 t from rfl,
        blk4_amp, ih]
    · by_cases h2 : x = '<'
      · subst h2
        rw [show chunks escChar4 ('<' :: t) = "&lt;".data ++ chunks escChar4 t from rfl,
          show chunks escChar3 ('<' :: t) = "&lt;".data ++ chunks escChar3 t from rfl,
          blk4_lt, ih]
      · by_cases h3 : x = '>'
        · subst h3
          rw [show chunks escChar4 ('>' :: t) = "&gt;".data ++ chunks escChar4 t from rfl,
            show chunks escChar3 ('>' :: t) = "&gt;".data ++ chunks escChar3 t from rfl,
            blk4_gt, ih]
        · by_cases h4 : x = '"'
          · subst h4
            rw [show chunks escChar4 ('"' :: t) = "&quot;".data ++ chunks escChar4 t from rfl,
              show chunks escChar3 ('"' :: t) = '"' :: chunks escChar3 t from rfl,
              blk4_quot, ih]
          · have hx4 : escChar4 x = [x] := by
              simp [escChar4, escChar3, escChar2, escChar1, h1, h2, h3, h4]
            have hx3 : escChar3 x = [x] := by
              simp [escChar3, escChar2, escChar1, h1, h2, h3]
            rw [show chunks escChar4 (x :: t) = escChar4 x ++ chunks escChar4 t from rfl,
              show chunks escChar3 (x :: t) = escChar3 x ++ chunks escChar3 t from rfl,
              hx4, hx3, List.singleton_append, List.singleton_append,
              replaceStr_cons_ne "quot;".data ['"'] x h1, ih]

/-- Undoing `&gt;`. -/
theorem replaceStr_stage3 (l : List Char) :
    replaceStr "&gt;".data ['>'] (chunks escChar3 l) = chunks escChar2 l := by
  induction l with
  | nil => rfl
  | cons x t ih =>
    by_cases h1 : x = '&'
    · subst h1
      rw [show chunks escChar3 ('&' :: t) = "&amp;".data ++ chunks escChar3 t from rfl,
        show chunks escChar2 ('&' :: t) = "&amp;".data ++ chunks escChar2 t from rfl,
        blk3_amp, ih]
    · by_cases h2 : x = '<'
      · subst h2
        rw [show chunks escChar3 ('<' :: t) = "&lt;".data ++ chunks escChar3 t from rfl,
          show chunks escChar2 ('<' :: t) = "&lt;".data ++ chunks escChar2 t from rfl,
          blk3_lt, ih]
      · by_cases h3 : x = '>'
        · subst h3
          rw [show chunks escChar3 ('>' :: t) = "&gt;".data ++ chunks escChar3 t from rfl,
            show chunks escChar2 ('>' :: t) = '>' :: chunks escChar2 t from rfl,
            blk3_gt, ih]
        · have hx3 : escChar3 x = [x] := by
            simp [escChar3, escChar2, escChar1, h1, h2, h3]
          have hx2 : escChar2 x = [x] := by
            simp [escChar2, escChar1, h1, h2]
          rw [show chunks escChar3 (x :: t) = escChar3 x ++ chunks escChar3 t from rfl,
            show chunks escChar2 (x :: t) = escChar2 x ++ chunks escChar2 t from rfl,
            hx3, hx2, List.singleton_append, List.singleton_append,
            replaceStr_cons_ne "gt;".data ['>'] x h1, ih]

/-- Undoing `&lt;`. -/
theorem replaceStr_stage2 (l : List Char) :
    replaceStr "&lt;".data ['<'] (chunks escChar2 l) = chunks escChar1 l := by
  induction l with
  | nil => rfl
  | cons x t ih =>
    by_cases h1 : x = '&'
    · subst h1
      rw [show chunks escChar2 ('&' :: t) = "&amp;".data ++ chunks escChar2 t from rfl,
        show chunks escChar1 ('&' :: t) = "&amp;".data ++ chunks escChar1 t from rfl,
        blk2_amp, ih]
    · by_cases h2 : x = '<'
      · subst h2
        rw [show chunks escChar2 ('<' :: t) = "&lt;".data ++ chunks escChar2 t from rfl,
          show chunks escChar1 ('<' :: t) = '<' :: chunks escChar1 t from rfl,
          blk2_lt, ih]
      · have hx2 : escChar2 x = [x] := by
          simp [escChar2, escChar1, h1, h2]
        have hx1 : escChar1 x = [x] := by
          simp [escChar1, h1]
        rw [show chunks escChar2 (x :: t) = escChar2 x ++ chunks escChar2 t from rfl,
          show chunks escChar1 (x :: t) = escChar1 x ++ chunks escChar1 t from rfl,
          hx2, hx1, List.singleton_append, List.singleton_append,
          replaceStr_cons_ne "lt;".data ['<'] x h1, ih]

/-- Undoing `&amp;` last recovers the original text. -/
theorem replaceStr_stage1 (l : List Char) :
    replaceStr "&amp;".data ['&'] (chunks escChar1 l) = l := by
  induction l with
  | nil => rfl
  | cons x t ih =>
    by_cases h1 : x = '&'
    · subst h1
      rw [show chunks escChar1 ('&' :: t) = "&amp;".data ++ chunks escChar1 t from rfl,
        blk1_amp, ih]
    · have hx1 : escChar1 x = [x] := by
        simp [escChar1, h1]
      rw [show chunks escChar1 (x :: t) = escChar1 x ++ chunks escChar1 t from rfl,
        hx1, List.singleton_append,
        replaceStr_cons_ne "amp;".data ['&'] x h1, ih]

/-- List-level round trip. -/
theorem unescapeHtmlL_escapeHtmlL (l : List Char) :
    unescapeHtmlL (escapeHtmlL l) = l := by
  rw [escapeHtmlL_eq_chunks]
  unfold unescapeHtmlL
  rw [replaceStr_stage5, replaceStr_stage4, replaceStr_stage3, replaceStr_stage2,
    replaceStr_stage1]

/-- A character string free of the five special characters is expanded to
itself. -/
theorem chunks_escChar_of_safe (l : List Char)
    (h : ∀ c ∈ l, c ≠ '&' ∧ c ≠ '<' ∧ c ≠ '>' ∧ c ≠ '"' ∧ c ≠ apos) :
    chunks escChar l = l := by
  induction l with
  | nil => rfl
  | cons x t ih =>
    obtain ⟨h1, h2, h3, h4, h5⟩ := h x (List.mem_cons_self x t)
    have hx : escChar x = [x] := by
      simp [escChar, escChar4, escChar3, escChar2, escChar1, h1, h2, h3, h4, h5]
    have ht := ih fun c hc => h c (List.mem_cons_of_mem x hc)
    rw [show chunks escChar (x :: t) = escChar x ++ chunks escChar t from rfl, hx,
      List.singleton_append, ht]

/-- **C5.** For every input string, applying the five substitutions of
`escapeHtml` (`&` first, then `<`, `>`, `"`, `'`) and then reversing them
reproduces the original string exactly; and on every string containing
none of the five characters, `escapeHtml` is the identity. -/
theorem escapeHtml_roundtrip_and_identity :
    (∀ s : String, unescapeHtml (escapeHtml s) = s) ∧
    (∀ s : String,
      (∀ c ∈ s.data, c ≠ '&' ∧ c ≠ '<' ∧ c ≠ '>' ∧ c ≠ '"' ∧ c ≠ apos) →
      escapeHtml s = s) := by
  constructor
  · intro s
    calc unescapeHtml (escapeHtml s)
        = ⟨unescapeHtmlL (escapeHtmlL s.data)⟩ := rfl
      _ = ⟨s.data⟩ := by rw [unescapeHtmlL_escapeHtmlL]
      _ = s := rfl
  · intro s h
    calc escapeHtml s = ⟨escapeHtmlL s.data⟩ := rfl
      _ = ⟨chunks escChar s.data⟩ := by rw [escapeHtmlL_eq_chunks]
      _ = ⟨s.data⟩ := by rw [chunks_escChar_of_safe s.data h]
      _ = s := rfl

/-- Witness for C5: the round trip and the identity evaluated on concrete
strings (the identity hypothesis is discharged by `decide`). -/
theorem escapeHtml_roundtrip_witness :
    unescapeHtml (escapeHtml "O\x27Brien & <Sons>") = "O\x27Brien & <Sons>" ∧
    escapeHtml "plain text" = "plain text" :=
  ⟨escapeHtml_roundtrip_and_identity.1 "O\x27Brien & <Sons>",
   escapeHtml_roundtrip_and_identity.2 "plain text" (by decide)⟩

/-! ### Activity log recorder (`addActivityLog`, script.js lines 22–36)

```js
const icons = { info: 'ℹ️', success: '✅', error: '❌', warning: '⚠️', validation: '🔍' };
const colors = { info: '#8ab4f8', success: '#4caf50', error: '#ff6b6b', warning: '#ffb74d', validation: '#9c27b0' };
logEntry.style.color = colors[type] || colors.info;
logEntry.textContent = `[timeStr] icon message`;
```

`new Date().toLocaleTimeString()` is environment-dependent and therefore
passed in as the `timeStr` parameter. -/

/-- One appended DOM log entry: its display color and its text content. -/
structure LogDomEntry where
  color : String
  text : String
deriving DecidableEq

/-- `icons[type]`: property lookup in the icon table (`none` = absent key). -/
def logIcon (ty : String) : Option String :=
  if ty = "info" then some "ℹ️"
  else if ty = "success" then some "✅"
  else if ty = "error" then some "❌"
  else if ty = "warning" then some "⚠️"
  else if ty = "validation" then some "🔍"
  else none

/-- `colors[type]`: property lookup in the color table. -/
def logColor (ty : String) : Option String :=
  if ty = "info" then some "#8ab4f8"
  else if ty = "success" then some "#4caf50"
  else if ty = "error" then some "#ff6b6b"
  else if ty = "warning" then some "#ffb74d"
  else if ty = "validation" then some "#9c27b0"
  else none

/-- The DOM entry appended by `addActivityLog(message, type)`:
color `colors[type] || colors.info`, text `[timeStr] icons[type] || '' message`. -/
def addActivityLog (timeStr message ty : String) : LogDomEntry :=
  { color := (logColor ty).getD "#8ab4f8"
    text := "[" ++ timeStr ++ "] " ++ (logIcon ty).getD "" ++ " " ++ message }

/-- Counterexample to C8: for the unrecognized category `"debug"` the
entry keeps the info color but gets an *empty* icon, not the info icon
`ℹ️`: the text has two spaces and no glyph. -/
theorem addActivityLog_unknown_counterexample :
    (addActivityLog "12:00:00" "hello" "debug").color = "#8ab4f8" ∧
    (addActivityLog "12:00:00" "hello" "debug").text = "[12:00:00]  hello" ∧
    (addActivityLog "12:00:00" "hello" "debug").text ≠ "[12:00:00] ℹ️ hello" := by
  refine ⟨rfl, rfl, ?_⟩
  decide

/-- **C8 (amended).** A call with a category outside
`{info, success, error, warning, validation}` appends an entry with the
info category's color `#8ab4f8` but with the *empty* icon (`icons[type] || ''`),
so the text is `[<time>]  <message>` with no glyph. -/
theorem addActivityLog_unknown_amended (timeStr message ty : String)
    (h : ty ∉ ["info", "success", "error", "warning", "validation"]) :
    (addActivityLog timeStr message ty).color = "#8ab4f8" ∧
    (addActivityLog timeStr message ty).text = "[" ++ timeStr ++ "]  " ++ message := by
  simp only [List.mem_cons, List.mem_singleton, not_or] at h
  obtain ⟨h1, h2, h3, h4, h5⟩ := h
  constructor
  · simp [addActivityLog, logColor, h1, h2, h3, h4, h5]
  · show "[" ++ timeStr ++ "] " ++ (logIcon ty).getD "" ++ " " ++ message =
      "[" ++ timeStr ++ "]  " ++ message
    have hi : logIcon ty = none := by
      simp [logIcon, h1, h2, h3, h4, h5]
    rw [hi]
    show "[" ++ timeStr ++ "] " ++ "" ++ " " ++ message = "[" ++ timeStr ++ "]  " ++ message
    rw [String.append_empty, String.append_assoc ("[" ++ timeStr) "] " " "]
    rfl

/-- Witness for the amended C8 at a concrete unrecognized category. -/
theorem addActivityLog_unknown_amended_witness :
    (addActivityLog "12:00:00" "ping" "debug").color = "#8ab4f8" ∧
    (addActivityLog "12:00:00" "ping" "debug").text = "[12:00:00]  ping" := by
  have h := addActivityLog_unknown_amended "12:00:00" "ping" "debug" (by decide)
  exact ⟨h.1, h.2⟩

/-! ### Upload handler (script.js lines 231–263)

The `.then(data => …)` continuation of the `/upload` call.  Cell values
are treated as text (`String(row[col] || '')`); the log entries are the
`(message, category)` pairs handed to `addActivityLog`. -/

/-- One uploaded spreadsheet row: a mapping from column name to cell text. -/
abbrev Row := List (String × String)

/-- `String(row[col] || '')`: a missing (or falsy) cell renders as `""`. -/
def cellOf (row : Row) (col : String) : String :=
  (List.lookup col row).getD ""

/-- Body of the `/upload` JSON response (`data.rows || []` is modelled by
`rows` already being a list). -/
structure UploadResponse where
  error : Option String
  rows : List Row
  columns : List String

/-- Sequential `forEach … +=` string building. -/
def strConcat : List String → String
  | [] => ""
  | s :: l => s ++ strConcat l

/-- `<th>${col}</th>` — header cell, no escaping. -/
def thCell (col : String) : String := "<th>" ++ col ++ "</th>"

/-- `<td>${escapeHtml(String(row[col] || ''))}</td>` — body cell, escaped. -/
def tdCell (row : Row) (col : String) : String :=
  "<td>" ++ escapeHtml (cellOf row col) ++ "</td>"

/-- One preview body row. -/
def previewRowHtml (cols : List String) (row : Row) : String :=
  "<tr>" ++ strConcat (cols.map (tdCell row)) ++ "</tr>"

/-- The body rows actually rendered: `uploadedRows.slice(0,5)`. -/
def previewBodyRows (cols : List String) (rows : List Row) : List String :=
  (rows.take 5).map (previewRowHtml cols)

/-- The preview table markup of the upload success path. -/
def previewTableHtml (cols : List String) (rows : List Row) : String :=
  "<table class=\"table table-striped table-bordered\"><thead><tr>" ++
    strConcat (cols.map thCell) ++
    "</tr></thead><tbody>" ++
    strConcat (previewBodyRows cols rows) ++
    "</tbody></table>"

/-- The success log line:
`File uploaded successfully. Showing first ${Math.min(uploadedRows.length, 5)} rows.` -/
def uploadSuccessMessage (n : Nat) : String :=
  "File uploaded successfully. Showing first " ++ toString (min n 5) ++ " rows."

/-- Artifacts produced by the upload response handler. -/
structure UploadOutcome where
  log : List (String × String)
  preview : Option String          -- `none` = preview area left unchanged
  bodyRows : List String           -- body row fragments rendered into the table
  generateEnabled : Bool
  validateEnabled : Bool

/-- The `.then(data => …)` handler of the upload call. -/
def uploadHandler (resp : UploadResponse) : UploadOutcome :=
  match resp.error with
  | some e =>
    { log := [(e, "error")], preview := none, bodyRows := [],
      generateEnabled := false, validateEnabled := false }
  | none =>
    if resp.rows.length = 0 then
      { log := [(uploadSuccessMessage resp.rows.length, "success")],
        preview := some "<p>No data found in file.</p>", bodyRows := [],
        generateEnabled := false, validateEnabled := false }
    else
      { log := [(uploadSuccessMessage resp.rows.length, "success")],
        preview := some (previewTableHtml resp.columns resp.rows),
        bodyRows := previewBodyRows resp.columns resp.rows,
        generateEnabled := true, validateEnabled := true }

/-- **C6.** For every successful upload response with `n` rows, the
rendered preview contains exactly `min n 5` body rows (none at all for
`n = 0`, where a placeholder replaces the table) and the success log line
states exactly that count. -/
theorem upload_preview_row_cap (resp : UploadResponse) (h : resp.error = none) :
    ((uploadHandler resp).bodyRows).length = min resp.rows.length 5 ∧
    (uploadHandler resp).log =
      [("File uploaded successfully. Showing first " ++
          toString (min resp.rows.length 5) ++ " rows.", "success")] := by
  by_cases hz : resp.rows.length = 0
  · constructor
    · simp [uploadHandler, h, hz]
    · simp [uploadHandler, h, hz, uploadSuccessMessage]
  · constructor
    · simp [uploadHandler, h, hz, previewBodyRows, List.length_take, Nat.min_comm]
    · simp [uploadHandler, h, hz, uploadSuccessMessage]

/-- Witness for C6 on a concrete 7-row response: 5 body rows are rendered
and the log line says 5. -/
theorem upload_preview_row_cap_witness :
    ((uploadHandler
        { error := none,
          rows := [[("A", "1")], [("A", "2")], [("A", "3")], [("A", "4")],
                   [("A", "5")], [("A", "6")], [("A", "7")]],
          columns := ["A"] }).bodyRows).length = 5 ∧
    (uploadHandler
        { error := none,
          rows := [[("A", "1")], [("A", "2")], [("A", "3")], [("A", "4")],
                   [("A", "5")], [("A", "6")], [("A", "7")]],
          columns := ["A"] }).log =
      [("File uploaded successfully. Showing first 5 rows.", "success")] := by
  have h := upload_preview_row_cap
    { error := none,
      rows := [[("A", "1")], [("A", "2")], [("A", "3")], [("A", "4")],
               [("A", "5")], [("A", "6")], [("A", "7")]],
      columns := ["A"] } rfl
  exact ⟨h.1, h.2⟩

/-! ### Validation report data model (spec §3, consumed by
`displayValidationResults`, script.js lines 78–207)

Collections absent on the wire (`results.summary || {}`,
`results.detailed_errors || {}`, `results.auto_corrections || []`,
missing `customers`/`items` arrays) are modelled as empty/default values,
which render identically.  The per-entity subject field is called
`customer` for customer issues and `item` for item issues in the wire
format; both are modelled as `subject`. -/

/-- `{passed, warnings, failed}` counts of one validation category. -/
structure VCounts where
  passed : Nat
  warnings : Nat
  failed : Nat
deriving DecidableEq

/-- `results.summary`. -/
structure VSummary where
  customer_validation : Option VCounts
  item_validation : Option VCounts
  can_proceed : Bool
  critical_errors : Nat
  total_warnings : Nat
deriving DecidableEq

/-- One entry of `detailed_errors.customers` / `detailed_errors.items`. -/
structure VIssue where
  subject : String
  message : String
  itype : String
  suggestion : Option String
deriving DecidableEq

/-- One entry of `auto_corrections`. -/
structure Correction where
  ctype : String
  original : String
  suggested : String
deriving DecidableEq

/-- A validation report as consumed by `displayValidationResults`. -/
structure ValidationReport where
  summary : VSummary
  customers : List VIssue
  items : List VIssue
  auto_corrections : List Correction
deriving DecidableEq

/-- `summary.customer_validation?.passed || 0` and friends: optional
chaining with a `0` default. -/
def optCount (oc : Option VCounts) (f : VCounts → Nat) : Nat :=
  match oc with
  | none => 0
  | some c => f c

/-! ### `displayValidationResults` markup (script.js lines 85–206)

The function builds one `html` string by successive `+=` of template
literals; each `+=` chunk below is one definition, and the numeric
interpolations `${n || 0}` are `toString n` (identical for `Nat`). -/

/-- Summary cards and readiness banner (lines 85–118). -/
def summaryHtml (s : VSummary) : String :=
  "\n    <div class=\"validation-summary mb-3\">\n      <h5>Validation Summary</h5>\n      <div class=\"row\">\n        <div class=\"col-md-6\">\n          <div class=\"card\">\n            <div class=\"card-body\">\n              <h6 class=\"card-title\">👥 Customer Validation</h6>\n              <p class=\"mb-1\">✅ Passed: " ++
    toString (optCount s.customer_validation VCounts.passed) ++
    "</p>\n              <p class=\"mb-1\">⚠️ Warnings: " ++
    toString (optCount s.customer_validation VCounts.warnings) ++
    "</p>\n              <p class=\"mb-0\">❌ Failed: " ++
    toString (optCount s.customer_validation VCounts.failed) ++
    "</p>\n            </div>\n          </div>\n        </div>\n        <div class=\"col-md-6\">\n          <div class=\"card\">\n            <div class=\"card-body\">\n              <h6 class=\"card-title\">📦 Item Validation</h6>\n              <p class=\"mb-1\">✅ Passed: " ++
    toString (optCount s.item_validation VCounts.passed) ++
    "</p>\n              <p class=\"mb-1\">⚠️ Warnings: " ++
    toString (optCount s.item_validation VCounts.warnings) ++
    "</p>\n              <p class=\"mb-0\">❌ Failed: " ++
    toString (optCount s.item_validation VCounts.failed) ++
    "</p>\n            </div>\n          </div>\n        </div>\n      </div>\n      \n      <div class=\"mt-3\">\n        <div class=\"alert " ++
    (if s.can_proceed then "alert-success" else "alert-danger") ++
    "\">\n          <strong>" ++
    (if s.can_proceed then "✅ Ready to Proceed" else "❌ Critical Errors Found") ++
    "</strong>\n          <br>Critical Errors: " ++
    toString s.critical_errors ++
    " | Warnings: " ++
    toString s.total_warnings ++
    "\n        </div>\n      </div>\n    </div>\n  "

/-- `<br><small>💡 Suggestion: ${error.suggestion}</small>` — the raw
(unescaped) interpolation of a suggestion text. -/
def suggestionText (s : String) : String :=
  "<br><small>💡 Suggestion: " ++ s ++ "</small>"

/-- `${error.suggestion ? `<br>…` : ''}` (falsy = absent or empty). -/
def suggestionHtml (sug : Option String) : String :=
  match sug with
  | none => ""
  | some s => if s.isEmpty then "" else suggestionText s

/-- `<strong>${error.customer}</strong>: ${error.message}` — the raw
(unescaped) interpolation of an issue's subject and message. -/
def issueLine (i : VIssue) : String :=
  "<strong>" ++ i.subject ++ "</strong>: " ++ i.message

/-- One issue list item (lines 130–135 / 151–156). -/
def issueChunk (i : VIssue) : String :=
  "\n        <div class=\"list-group-item " ++
    (if i.itype = "error" then "list-group-item-danger" else "list-group-item-warning") ++
    "\">\n          " ++ issueLine i ++ "\n          " ++
    suggestionHtml i.suggestion ++ "\n        </div>\n      "

/-- One issues section (customer issues lines 121–139, item issues
lines 142–160), emitted only when the list is non-empty. -/
def issuesSection (title : String) (issues : List VIssue) : String :=
  if issues.length = 0 then ""
  else
    "\n      <div class=\"validation-errors mb-3\">\n        <h6>" ++ title ++
      "</h6>\n        <div class=\"list-group\">\n    " ++
      strConcat (issues.map issueChunk) ++
      "</div></div>"

/-- `"${correction.original}" → "${correction.suggested}"` — the raw
quoted pairing of a correction's fields. -/
def quotedPair (a b : String) : String :=
  "\"" ++ a ++ "\" → \"" ++ b ++ "\""

/-- `correction.type === 'customer' ? '👥' : '📦'`. -/
def correctionGlyph (c : Correction) : String :=
  if c.ctype = "customer" then "👥" else "📦"

/-- One auto-correction checkbox item (lines 171–179). -/
def correctionItemHtml (i : Nat) (c : Correction) : String :=
  "\n        <div class=\"form-check\">\n          <input class=\"form-check-input\" type=\"checkbox\" id=\"correction_" ++
    toString i ++
    "\" checked>\n          <label class=\"form-check-label\" for=\"correction_" ++
    toString i ++
    "\">\n            " ++
    correctionGlyph c ++
    " \n            " ++
    quotedPair c.original c.suggested ++
    "\n          </label>\n        </div>\n      "

/-- The auto-corrections section (lines 163–189), emitted only when
non-empty; items are indexed by `forEach((correction, index))`. -/
def correctionsSection (cs : List Correction) : String :=
  if cs.length = 0 then ""
  else
    "\n      <div class=\"auto-corrections mb-3\">\n        <h6>🔧 Suggested Auto-corrections</h6>\n        <div class=\"correction-list\">\n    " ++
      strConcat (cs.enum.map fun ic => correctionItemHtml ic.1 ic.2) ++
      "\n        </div>\n        <button type=\"button\" class=\"btn btn-success btn-sm mt-2\" onclick=\"applyCorrections()\">\n          Apply Selected Corrections\n        </button>\n      </div>\n    "

/-- The action buttons (lines 192–204): Generate JSON carries `disabled`
exactly when `can_proceed` is falsy; Retry and Skip are unconditional. -/
def validationActionsHtml (canProceed : Bool) : String :=
  "\n    <div class=\"validation-actions\">\n      <button type=\"button\" class=\"btn btn-primary\" onclick=\"proceedToGenerate()\" " ++
    (if canProceed then "" else "disabled") ++
    ">\n        📋 Generate JSON\n      </button>\n      <button type=\"button\" class=\"btn btn-secondary ms-2\" onclick=\"retryValidation()\">\n        🔄 Retry Validation\n      </button>\n      <button type=\"button\" class=\"btn btn-outline-secondary ms-2\" onclick=\"skipValidation()\">\n        ⏭️ Skip & Generate\n      </button>\n    </div>\n  "

/-- Everything `displayValidationResults` renders before the action
buttons. -/
def validationPrefixHtml (r : ValidationReport) : String :=
  summaryHtml r.summary ++
    issuesSection "Customer Issues" r.customers ++
    issuesSection "Item Issues" r.items ++
    correctionsSection r.auto_corrections

/-- The complete markup assigned to `validationResults.innerHTML`. -/
def displayValidationResultsHtml (r : ValidationReport) : String :=
  validationPrefixHtml r ++ validationActionsHtml r.summary.can_proceed

/-! ### Correction label re-parsing (`applyCorrections`, script.js lines 348–397)

```js
const label = checkbox.nextElementSibling.textContent;
const match = label.match(/(customer|item).*?"(.+?)" → "(.+?)"/);
if (match) {
  corrections.push({
    type: match[1] === '👥' ? 'customer' : 'item',
    original: match[2],
    suggested: match[3]
  });
}
```

The regex is embedded as a specialized backtracking matcher: the overall
match is leftmost; the alternation tries `customer` before `item`; the
lazy quantifiers prefer the shortest capture, extending only when the
rest of the pattern cannot complete; `.` does not match a newline.
`splits` enumerates prefix/suffix splits shortest-prefix first and
`List.findSome?` commits to the first full success, which reproduces
exactly that backtracking order. -/

/-- All splits of a list into a prefix/suffix pair, shortest prefix
first. -/
def splits : List Char → List (List Char × List Char)
  | [] => [([], [])]
  | c :: rest => ([], c :: rest) :: (splits rest).map (fun p => (c :: p.1, p.2))

/-- `.`-compatibility: every character except newline. -/
def noNl (l : List Char) : Bool := l.all (fun c => !(c == '\n'))

/-- Strip a literal from the front. -/
def stripLit (pre l : List Char) : Option (List Char) :=
  if isPre pre l then some (l.drop pre.length) else none

/-- The literal `" → "` standing between the two quoted captures. -/
def sepArrow : List Char := "\" → \"".data

/-- Matcher for the pattern tail `.*?"(.+?)" → "(.+?)"`, returning the
two captures. -/
def matchTail (r : List Char) : Option (List Char × List Char) :=
  (splits r).findSome? fun pa =>
    if noNl pa.1 then
      match pa.2 with
      | '"' :: r2 =>
        (splits r2).findSome? fun pb =>
          if !pb.1.isEmpty && noNl pb.1 then
            match stripLit sepArrow pb.2 with
            | some r4 =>
              (splits r4).findSome? fun pc =>
                if !pc.1.isEmpty && noNl pc.1 then
                  match pc.2 with
                  | '"' :: _ => some (pb.1, pc.1)
                  | _ => none
                else none
            | none => none
          else none
      | _ => none
    else none

/-- The alternation `(customer|item)` as a literal-prefix match. -/
def matchTypeWord (l : List Char) : Option (List Char × List Char) :=
  match stripLit "customer".data l with
  | some r => some ("customer".data, r)
  | none =>
    match stripLit "item".data l with
    | some r => some ("item".data, r)
    | none => none

/-- Whole-pattern match attempt at one start position. -/
def matchCorrectionAt (l : List Char) : Option (List Char × List Char × List Char) :=
  match matchTypeWord l with
  | none => none
  | some (w, r) =>
    match matchTail r with
    | none => none
    | some g => some (w, g.1, g.2)

/-- Leftmost match of the correction regex: groups
(`customer|item`, original, suggested), or `none`. -/
def matchCorrection : List Char → Option (List Char × List Char × List Char)
  | [] => none
  | c :: rest =>
    match matchCorrectionAt (c :: rest) with
    | some m => some m
    | none => matchCorrection rest

/-- The structured correction `applyCorrections` pushes for a matching
label: note the source compares the captured *word* `match[1]` against
the glyph `👥`. -/
def parseCorrectionLabel (label : List Char) : Option Correction :=
  match matchCorrection label with
  | none => none
  | some m =>
    some { ctype := if m.1 = "👥".data then "customer" else "item",
           original := ⟨m.2.1⟩, suggested := ⟨m.2.2⟩ }

/-- The text content of one rendered correction label: the text between
`<label …>` and `</label>` of `correctionItemHtml` (template lines
174–177), whitespace included. -/
def correctionLabelText (c : Correction) : List Char :=
  ("\n            " ++ correctionGlyph c ++ " \n            " ++
    quotedPair c.original c.suggested ++ "\n          ").data

/-- `applyCorrections()` synchronous part (lines 348–381): guard on the
current session, parse every checked label, then either warn (none
parsed) or log progress and issue the `/apply_corrections` request. -/
def applyCorrectionsRun (session : Option String) (labels : List (List Char)) :
    List (String × String) × Option (String × List Correction) :=
  match session with
  | none => ([], none)
  | some sid =>
    if sid.isEmpty then ([], none)
    else
      let corrections := labels.filterMap parseCorrectionLabel
      if corrections.length = 0 then
        ([("No corrections selected.", "warning")], none)
      else
        ([("Applying " ++ toString corrections.length ++ " corrections...", "validation")],
          some (sid, corrections))

/-- `getValidationReport()` synchronous part (lines 329–332): guard on
the current session, then the `/validation_report/{session}` fetch; no
log entry is appended before the response arrives. -/
def getValidationReportRequest (session : Option String) : Option String :=
  match session with
  | none => none
  | some sid => if sid.isEmpty then none else some sid

/-- **C1 (code evaluated at the failing input).** The rendered label of
the auto-correction `{type: "customer", original: "ACME Corp", suggested:
"Acme Corporation"}` is *not* parsed back: the label carries the glyph
`👥` and never the literal words `customer`/`item` that the regex
requires, so the checked item is excluded and `applyCorrections` ends
with the "No corrections selected." warning.  Moreover, a label that
does contain the word `customer` parses with type `"item"`, because the
captured word is compared against the glyph `👥`. -/
theorem applyCorrections_glyph_label_excluded :
    parseCorrectionLabel
        (correctionLabelText ⟨"customer", "ACME Corp", "Acme Corporation"⟩) = none ∧
    applyCorrectionsRun (some "abc123")
        [correctionLabelText ⟨"customer", "ACME Corp", "Acme Corporation"⟩] =
      ([("No corrections selected.", "warning")], none) ∧
    parseCorrectionLabel "customer \"A\" → \"B\"".data =
      some ⟨"item", "A", "B"⟩ := by
  decide

/-- **C10.** With no stored validation session identifier, both
`getValidationReport` and `applyCorrections` are silent no-ops: no
network request is issued and no activity-log entry is appended. -/
theorem null_session_silent_noop :
    getValidationReportRequest none = none ∧
    ∀ labels, applyCorrectionsRun none labels = ([], none) :=
  ⟨rfl, fun _ => rfl⟩

/-- **C7.** `displayValidationResults` renders the action buttons after
the report body; the `disabled` attribute occurs in that chunk exactly
when `summary.can_proceed` is false (it is attached to the Generate JSON
button), while the Skip & Generate action is rendered in both cases. -/
theorem validation_canProceed_gating :
    (∀ r : ValidationReport,
      displayValidationResultsHtml r =
        validationPrefixHtml r ++ validationActionsHtml r.summary.can_proceed) ∧
    (∀ p : Bool, ("disabled".data <:+: (validationActionsHtml p).data) ↔ p = false) ∧
    (∀ p : Bool, "onclick=\"skipValidation()\"".data <:+: (validationActionsHtml p).data) := by
  refine ⟨fun r => rfl, fun p => ?_, fun p => ?_⟩
  · cases p with
    | false => exact ⟨fun _ => rfl, fun _ => by decide⟩
    | true =>
      constructor
      · intro h; exact absurd h (by decide)
      · intro h; cases h
  · cases p with
    | false => decide
    | true => decide

/-! ### Substring facts about the rendered markup

Helper lemmas locating a rendered fragment inside the concatenated
markup, used to show which interpolations reach the output verbatim. -/

theorem linfix_self_right (a y : List Char) : a <:+: a ++ y :=
  ⟨[], y, by simp⟩

theorem linfix_ext_left {a m : List Char} (x : List Char) (h : a <:+: m) :
    a <:+: x ++ m := by
  obtain ⟨u, v, rfl⟩ := h
  exact ⟨x ++ u, v, by simp⟩

theorem linfix_ext_right {a m : List Char} (y : List Char) (h : a <:+: m) :
    a <:+: m ++ y := by
  obtain ⟨u, v, rfl⟩ := h
  exact ⟨u, v ++ y, by simp⟩

theorem linfix_trans {a b c : List Char} (h1 : a <:+: b) (h2 : b <:+: c) :
    a <:+: c := by
  obtain ⟨u, v, rfl⟩ := h1
  obtain ⟨p, q, rfl⟩ := h2
  exact ⟨p ++ u, v ++ q, by simp⟩

theorem strConcat_mem_piece {α : Type _} (f : α → String) {x : α} {l : List α}
    (h : x ∈ l) : (f x).data <:+: (strConcat (l.map f)).data := by
  induction l with
  | nil => cases h
  | cons y t ih =>
    rw [List.map_cons,
      show strConcat (f y :: t.map f) = f y ++ strConcat (t.map f) from rfl,
      String.data_append]
    rcases List.mem_cons.mp h with h1 | h2
    · subst h1
      exact linfix_self_right _ _
    · exact linfix_ext_left _ (ih h2)

theorem mem_enumFrom_of_mem {α : Type _} {c : α} {cs : List α} (h : c ∈ cs) (k : Nat) :
    ∃ i, (i, c) ∈ cs.enumFrom k := by
  induction cs generalizing k with
  | nil => cases h
  | cons y t ih =>
    rcases List.mem_cons.mp h with h1 | h2
    · exact ⟨k, by rw [h1]; exact List.mem_cons_self _ _⟩
    · obtain ⟨i, hi⟩ := ih h2 (k + 1)
      exact ⟨i, List.mem_cons_of_mem _ hi⟩

theorem thCell_infix (cols : List String) (rows : List Row) {col : String}
    (h : col ∈ cols) : (thCell col).data <:+: (previewTableHtml cols rows).data := by
  have h1 := strConcat_mem_piece thCell h
  simp only [previewTableHtml, String.data_append, List.append_assoc]
  exact linfix_ext_left _ (linfix_ext_right _ h1)

theorem tdCell_infix (cols : List String) (rows : List Row) {row : Row} {col : String}
    (hr : row ∈ rows.take 5) (hc : col ∈ cols) :
    (tdCell row col).data <:+: (previewTableHtml cols rows).data := by
  have h1 := strConcat_mem_piece (tdCell row) hc
  have h2 : (tdCell row col).data <:+: (previewRowHtml cols row).data := by
    simp only [previewRowHtml, String.data_append, List.append_assoc]
    exact linfix_ext_left _ (linfix_ext_right _ h1)
  have h3 := strConcat_mem_piece (previewRowHtml cols) hr
  simp only [previewTableHtml, previewBodyRows, String.data_append, List.append_assoc]
  exact linfix_ext_left _ (linfix_ext_left _ (linfix_ext_left _
    (linfix_ext_right _ (linfix_trans h2 h3))))

theorem issueLine_infix_chunk (i : VIssue) :
    (issueLine i).data <:+: (issueChunk i).data := by
  simp only [issueChunk, String.data_append, List.append_assoc]
  exact linfix_ext_left _ (linfix_ext_left _ (linfix_ext_left _ (linfix_self_right _ _)))

theorem issueLine_infix_section (title : String) {i : VIssue} {issues : List VIssue}
    (h : i ∈ issues) : (issueLine i).data <:+: (issuesSection title issues).data := by
  have hne : ¬issues.length = 0 := by
    intro h0
    rw [List.length_eq_zero] at h0
    subst h0
    cases h
  have h1 := linfix_trans (issueLine_infix_chunk i) (strConcat_mem_piece issueChunk h)
  simp only [issuesSection, if_neg hne, String.data_append, List.append_assoc]
  exact linfix_ext_left _ (linfix_ext_left _ (linfix_ext_left _ (linfix_ext_right _ h1)))

theorem issueLine_infix_html {r : ValidationReport} {i : VIssue} (h : i ∈ r.customers) :
    (issueLine i).data <:+: (displayValidationResultsHtml r).data := by
  have h1 := issueLine_infix_section "Customer Issues" h
  simp only [displayValidationResultsHtml, validationPrefixHtml, String.data_append,
    List.append_assoc]
  exact linfix_ext_left _ (linfix_ext_right _ h1)

theorem quoted_infix_item (i : Nat) (c : Correction) :
    (quotedPair c.original c.suggested).data <:+: (correctionItemHtml i c).data := by
  simp only [correctionItemHtml, String.data_append, List.append_assoc]
  exact linfix_ext_left _ (linfix_ext_left _ (linfix_ext_left _ (linfix_ext_left _
    (linfix_ext_left _ (linfix_ext_left _ (linfix_ext_left _ (linfix_self_right _ _)))))))

theorem quoted_infix_section {c : Correction} {cs : List Correction} (h : c ∈ cs) :
    (quotedPair c.original c.suggested).data <:+: (correctionsSection cs).data := by
  have hne : ¬cs.length = 0 := by
    intro h0
    rw [List.length_eq_zero] at h0
    rw [h0] at h
    cases h
  obtain ⟨i, hi⟩ := mem_enumFrom_of_mem h 0
  have h2 := strConcat_mem_piece
    (fun ic : Nat × Correction => correctionItemHtml ic.1 ic.2) hi
  have h1 := linfix_trans (quoted_infix_item i c) h2
  simp only [correctionsSection, if_neg hne, String.data_append, List.append_assoc]
  exact linfix_ext_left _ (linfix_ext_right _ h1)

theorem quoted_infix_html {r : ValidationReport} {c : Correction}
    (h : c ∈ r.auto_corrections) :
    (quotedPair c.original c.suggested).data <:+: (displayValidationResultsHtml r).data := by
  have h1 := quoted_infix_section h
  simp only [displayValidationResultsHtml, validationPrefixHtml, String.data_append,
    List.append_assoc]
  exact linfix_ext_left _ (linfix_ext_left _ (linfix_ext_left _ (linfix_ext_right _ h1)))

/-- A suggestion fragment located inside an issue list item: present and
verbatim whenever the issue carries a non-empty suggestion. -/
theorem suggestion_infix_chunk {i : VIssue} {s : String} (hs : i.suggestion = some s)
    (hne : s.isEmpty = false) :
    (suggestionText s).data <:+: (issueChunk i).data := by
  have hsug : suggestionHtml i.suggestion = suggestionText s := by
    simp [suggestionHtml, hs, hne]
  simp only [issueChunk, hsug, String.data_append, List.append_assoc]
  exact linfix_ext_left _ (linfix_ext_left _ (linfix_ext_left _ (linfix_ext_left _
    (linfix_ext_left _ (linfix_self_right _ _)))))

/-- Any piece of a member issue's list item is a piece of the enclosing
issues section. -/
theorem chunk_piece_infix_section (title : String) {a : List Char} {i : VIssue}
    {issues : List VIssue} (h : i ∈ issues) (ha : a <:+: (issueChunk i).data) :
    a <:+: (issuesSection title issues).data := by
  have hne : ¬issues.length = 0 := by
    intro h0
    rw [List.length_eq_zero] at h0
    rw [h0] at h
    cases h
  have h1 := linfix_trans ha (strConcat_mem_piece issueChunk h)
  simp only [issuesSection, if_neg hne, String.data_append, List.append_assoc]
  exact linfix_ext_left _ (linfix_ext_left _ (linfix_ext_left _ (linfix_ext_right _ h1)))

/-- Any piece of the customer-issues section is a piece of the full
rendered report. -/
theorem customer_section_piece_infix_html {r : ValidationReport} {a : List Char}
    (ha : a <:+: (issuesSection "Customer Issues" r.customers).data) :
    a <:+: (displayValidationResultsHtml r).data := by
  simp only [displayValidationResultsHtml, validationPrefixHtml, String.data_append,
    List.append_assoc]
  exact linfix_ext_left _ (linfix_ext_right _ ha)

/-- Any piece of the item-issues section is a piece of the full rendered
report. -/
theorem item_section_piece_infix_html {r : ValidationReport} {a : List Char}
    (ha : a <:+: (issuesSection "Item Issues" r.items).data) :
    a <:+: (displayValidationResultsHtml r).data := by
  simp only [displayValidationResultsHtml, validationPrefixHtml, String.data_append,
    List.append_assoc]
  exact linfix_ext_left _ (linfix_ext_left _ (linfix_ext_right _ ha))

theorem issueLine_item_infix_html {r : ValidationReport} {i : VIssue}
    (h : i ∈ r.items) :
    (issueLine i).data <:+: (displayValidationResultsHtml r).data :=
  item_section_piece_infix_html
    (chunk_piece_infix_section "Item Issues" h (issueLine_infix_chunk i))

theorem suggestion_customer_infix_html {r : ValidationReport} {i : VIssue} {s : String}
    (h : i ∈ r.customers) (hs : i.suggestion = some s) (hne : s.isEmpty = false) :
    (suggestionText s).data <:+: (displayValidationResultsHtml r).data :=
  customer_section_piece_infix_html
    (chunk_piece_infix_section "Customer Issues" h (suggestion_infix_chunk hs hne))

theorem suggestion_item_infix_html {r : ValidationReport} {i : VIssue} {s : String}
    (h : i ∈ r.items) (hs : i.suggestion = some s) (hne : s.isEmpty = false) :
    (suggestionText s).data <:+: (displayValidationResultsHtml r).data :=
  item_section_piece_infix_html
    (chunk_piece_infix_section "Item Issues" h (suggestion_infix_chunk hs hne))

/-- A concrete report whose customer issue, item issue, suggestions and
correction all contain markup-special characters, used to exhibit that
`displayValidationResults` never escapes. -/
def vReportEx : ValidationReport :=
  { summary := { customer_validation := none, item_validation := none,
                 can_proceed := false, critical_errors := 1, total_warnings := 0 },
    customers := [⟨"<i>", "x<y", "error", some "S<T"⟩],
    items := [⟨"<j>", "p<q", "warning", some "U<V"⟩],
    auto_corrections := [⟨"customer", "A<B", "C&D"⟩] }

/-- **C9.** `escapeHtml` is applied only to preview body cell values:
header cells interpolate the column name verbatim (`<th><b></th>` for a
column named `<b>`, never `&lt;b&gt;`), body cells interpolate the
escaped value (`<td>5&lt;6</td>` for cell `5<6`), and
`displayValidationResults` interpolates customer names, item names,
messages, suggestions and correction originals/suggesteds verbatim — the
list items rendered for issues with subjects `<i>`/`<j>` and suggestions
`S<T`/`U<V`, and the checkbox item for a correction `A<B` → `C&D`, carry
the raw `<`/`&` and contain no `&lt;`/`&amp;` entity. -/
theorem escaping_application_sites :
    (∀ cols rows col, col ∈ cols →
      (thCell col).data <:+: (previewTableHtml cols rows).data) ∧
    (∀ cols rows row col, row ∈ rows.take 5 → col ∈ cols →
      (tdCell row col).data <:+: (previewTableHtml cols rows).data) ∧
    "<th><b></th>".data <:+: (previewTableHtml ["<b>"] [[("<b>", "5<6")]]).data ∧
    ¬"&lt;b&gt;".data <:+: (previewTableHtml ["<b>"] [[("<b>", "5<6")]]).data ∧
    "<td>5&lt;6</td>".data <:+: (previewTableHtml ["<b>"] [[("<b>", "5<6")]]).data ∧
    (∀ r : ValidationReport, ∀ i ∈ r.customers,
      (issueLine i).data <:+: (displayValidationResultsHtml r).data) ∧
    (∀ r : ValidationReport, ∀ i ∈ r.items,
      (issueLine i).data <:+: (displayValidationResultsHtml r).data) ∧
    (∀ r : ValidationReport, ∀ i ∈ r.customers, ∀ s, i.suggestion = some s →
      s.isEmpty = false →
      (suggestionText s).data <:+: (displayValidationResultsHtml r).data) ∧
    (∀ r : ValidationReport, ∀ i ∈ r.items, ∀ s, i.suggestion = some s →
      s.isEmpty = false →
      (suggestionText s).data <:+: (displayValidationResultsHtml r).data) ∧
    (∀ r : ValidationReport, ∀ c ∈ r.auto_corrections,
      (quotedPair c.original c.suggested).data <:+: (displayValidationResultsHtml r).data) ∧
    (issueLine ⟨"<i>", "x<y", "error", some "S<T"⟩).data <:+:
      (displayValidationResultsHtml vReportEx).data ∧
    (issueLine ⟨"<j>", "p<q", "warning", some "U<V"⟩).data <:+:
      (displayValidationResultsHtml vReportEx).data ∧
    (suggestionText "S<T").data <:+: (displayValidationResultsHtml vReportEx).data ∧
    (suggestionText "U<V").data <:+: (displayValidationResultsHtml vReportEx).data ∧
    "<strong><i></strong>: x<y".data <:+:
      (issueChunk ⟨"<i>", "x<y", "error", some "S<T"⟩).data ∧
    "💡 Suggestion: S<T".data <:+:
      (issueChunk ⟨"<i>", "x<y", "error", some "S<T"⟩).data ∧
    ¬"&lt;".data <:+: (issueChunk ⟨"<i>", "x<y", "error", some "S<T"⟩).data ∧
    ¬"&lt;".data <:+: (issueChunk ⟨"<j>", "p<q", "warning", some "U<V"⟩).data ∧
    ¬"&lt;".data <:+: (correctionItemHtml 0 ⟨"customer", "A<B", "C&D"⟩).data ∧
    ¬"&amp;".data <:+: (correctionItemHtml 0 ⟨"customer", "A<B", "C&D"⟩).data := by
  refine ⟨fun cols rows col h => thCell_infix cols rows h,
    fun cols rows row col hr hc => tdCell_infix cols rows hr hc,
    by decide, by decide, by decide,
    fun r i h => issueLine_infix_html h,
    fun r i h => issueLine_item_infix_html h,
    fun r i h s hs hne => suggestion_customer_infix_html h hs hne,
    fun r i h s hs hne => suggestion_item_infix_html h hs hne,
    fun r c h => quoted_infix_html h,
    issueLine_infix_html (List.mem_cons_self _ _),
    issueLine_item_infix_html (List.mem_cons_self _ _),
    suggestion_customer_infix_html (List.mem_cons_self _ _) rfl (by decide),
    suggestion_item_infix_html (List.mem_cons_self _ _) rfl (by decide),
    by decide, by decide, by decide, by decide, by decide, by decide⟩

/-- Witness for C9 at concrete inputs: a header cell and a body cell
fragment located in a concrete preview, and a customer issue line, an
item issue line, a suggestion fragment and a quoted correction pair
located in a concrete report rendering. -/
theorem escaping_application_sites_witness :
    (thCell "A").data <:+: (previewTableHtml ["A"] [[("A", "v")]]).data ∧
    (tdCell [("A", "v")] "A").data <:+: (previewTableHtml ["A"] [[("A", "v")]]).data ∧
    (issueLine ⟨"<i>", "x<y", "error", some "S<T"⟩).data <:+:
      (displayValidationResultsHtml vReportEx).data ∧
    (issueLine ⟨"<j>", "p<q", "warning", some "U<V"⟩).data <:+:
      (displayValidationResultsHtml vReportEx).data ∧
    (suggestionText "S<T").data <:+: (displayValidationResultsHtml vReportEx).data ∧
    (quotedPair "A<B" "C&D").data <:+: (displayValidationResultsHtml vReportEx).data := by
  obtain ⟨h1, h2, _, _, _, h6, h7, h8, _, h10, _⟩ := escaping_application_sites
  exact ⟨h1 ["A"] [[("A", "v")]] "A" (by decide),
    h2 ["A"] [[("A", "v")]] [("A", "v")] "A" (by decide) (by decide),
    h6 vReportEx ⟨"<i>", "x<y", "error", some "S<T"⟩ (by decide),
    h7 vReportEx ⟨"<j>", "p<q", "warning", some "U<V"⟩ (by decide),
    h8 vReportEx ⟨"<i>", "x<y", "error", some "S<T"⟩ (by decide) "S<T" rfl (by decide),
    h10 vReportEx ⟨"customer", "A<B", "C&D"⟩ (by decide)⟩

/-! ### Invoice posting results (postBtn listener, script.js lines 499–550)

The `.then(data => …)` handler distinguishes an array-shaped and an
object-shaped `results` value.  JSON values carried in `response` fields
are modelled by `JVal`; `JSON.stringify(undefined)` interpolated into a
template literal renders as `"undefined"`. -/

/-- Minimal JSON value for `response` payloads. -/
inductive JVal
  | jnull
  | jstr (s : String)
  | jnum (n : Nat)
  | jobj (fields : List (String × JVal))

mutual

/-- `JSON.stringify` on the modelled values. -/
def jstringify : JVal → String
  | .jnull => "null"
  | .jstr s => "\"" ++ s ++ "\""
  | .jnum n => toString n
  | .jobj fs => "\x7b" ++ jfields fs ++ "\x7d"

/-- Comma-separated `"key":value` pairs of an object. -/
def jfields : List (String × JVal) → String
  | [] => ""
  | [(k, v)] => "\"" ++ k ++ "\":" ++ jstringify v
  | (k, v) :: rest => "\"" ++ k ++ "\":" ++ jstringify v ++ "," ++ jfields rest

end

/-- JS truthiness of a JSON value (`null`, `""` and `0` are falsy). -/
def jsTruthyJV : JVal → Bool
  | .jnull => false
  | .jstr s => !s.isEmpty
  | .jnum n => n != 0
  | .jobj _ => true

/-- `JSON.stringify(x)` of a possibly-undefined value interpolated into a
template literal: `undefined` renders as `"undefined"`. -/
def stringifyOptJV : Option JVal → String
  | none => "undefined"
  | some v => jstringify v

/-- `r.invoice_no || 'Unknown'`-style defaulting (`""` is falsy). -/
def jsOrStr (v : Option String) (d : String) : String :=
  match v with
  | none => d
  | some s => if s.isEmpty then d else s

/-- `r.response || r.error` then `JSON.stringify(...)` (object branch):
a falsy response falls back to the error string, which stringifies with
quotes; both absent renders as `undefined`. -/
def stringifyRespOrError (resp : Option JVal) (err : Option String) : String :=
  match resp with
  | some v =>
    if jsTruthyJV v then jstringify v
    else
      match err with
      | some e => jstringify (.jstr e)
      | none => "undefined"
  | none =>
    match err with
    | some e => jstringify (.jstr e)
    | none => "undefined"

/-- One entry of `data.results`. -/
structure PostResult where
  success : Bool
  invoice_no : Option String
  response : Option JVal
  error : Option String

/-- The two recognized shapes of `data.results` (array at lines 516–527,
object keyed by invoice label at lines 528–539; object keys are kept in
iteration order). -/
inductive PostResults
  | arr (items : List PostResult)
  | obj (entries : List (String × PostResult))

/-- Array branch: per-item log lines and collected posted labels.
On failure the line stringifies `r.response` only — the `error` field is
not consulted in this branch. -/
def processArr (items : List PostResult) :
    List (String × String) × List String :=
  items.foldl
    (fun acc r =>
      let invoiceNo := jsOrStr r.invoice_no "Unknown"
      if r.success then
        (acc.1 ++ [("Invoice " ++ invoiceNo ++ " posted successfully", "success")],
          acc.2 ++ [invoiceNo])
      else
        (acc.1 ++ [("Invoice " ++ invoiceNo ++ " failed: " ++ stringifyOptJV r.response,
            "error")], acc.2))
    ([], [])

/-- Object branch: keyed by invoice label; failure stringifies
`r.response || r.error`. -/
def processObj (entries : List (String × PostResult)) :
    List (String × String) × List String :=
  entries.foldl
    (fun acc kv =>
      let invKey := kv.1
      let r := kv.2
      if r.success then
        (acc.1 ++ [("Invoice " ++ invKey ++ " posted successfully", "success")],
          acc.2 ++ [invKey])
      else
        (acc.1 ++ [("Invoice " ++ invKey ++ " failed: " ++
            stringifyRespOrError r.response r.error, "error")], acc.2))
    ([], [])

/-- Outcome of processing a present `data.results` value. -/
structure PostOutcome where
  log : List (String × String)
  lastCreatedShown : Bool
  lastInvoiceList : List String
deriving DecidableEq

/-- Lines 511–547: process both shapes, then — if anything was posted —
call `showLastInvoices(posted)` and log the aggregate count. -/
def postResultsHandler (results : PostResults) : PostOutcome :=
  let lp :=
    match results with
    | .arr items => processArr items
    | .obj entries => processObj entries
  if lp.2.length > 0 then
    { log := lp.1 ++
        [("Successfully posted " ++ toString lp.2.length ++ " invoice(s)", "success")],
      lastCreatedShown := true, lastInvoiceList := lp.2 }
  else
    { log := lp.1, lastCreatedShown := false, lastInvoiceList := [] }

/-- The sequence-shaped example of C2. -/
def postSeqExample : PostResults :=
  .arr [{ success := true, invoice_no := some "INV-001", response := none, error := none },
        { success := false, invoice_no := some "INV-002", response := none,
          error := some "Duplicate" }]

/-- Counterexample to C2: for the sequence-shaped results the Last-Created
display does show exactly `["INV-001"]`, but no log line mentions
`"Duplicate"` — the array branch stringifies `r.response` (absent, hence
`undefined`) and never reads the `error` field. -/
theorem postResults_seq_counterexample :
    (postResultsHandler postSeqExample).lastInvoiceList = ["INV-001"] ∧
    ((postResultsHandler postSeqExample).log.all
      fun e => !decide ("Duplicate".data <:+: e.1.data)) = true := by
  decide

/-- **C2 (amended).** For the sequence-shaped results the Last-Created
display shows exactly `["INV-001"]` and the log has one success line for
INV-001, one error line for INV-002 whose text is
`Invoice INV-002 failed: undefined` (the stringified absent `response`;
the `error` field `"Duplicate"` is not consulted), and the aggregate
count line. -/
theorem postResults_seq_amended :
    (postResultsHandler postSeqExample).log =
      [("Invoice INV-001 posted successfully", "success"),
       ("Invoice INV-002 failed: undefined", "error"),
       ("Successfully posted 1 invoice(s)", "success")] ∧
    (postResultsHandler postSeqExample).lastInvoiceList = ["INV-001"] ∧
    (postResultsHandler postSeqExample).lastCreatedShown = true := by
  decide

/-- The mapping-shaped example of C3. -/
def postMapExample : PostResults :=
  .obj [("row-1",
    { success := true, invoice_no := none,
      response := some (.jobj [("data", .jobj [("name", .jstr "SINV-0007")])]),
      error := none })]

/-- Counterexample to C3: for the mapping-shaped results no log line
mentions `SINV-0007` — the success path of the object branch ignores the
nested response entirely. -/
theorem postResults_map_counterexample :
    ((postResultsHandler postMapExample).log.all
      fun e => !decide ("SINV-0007".data <:+: e.1.data)) = true := by
  decide

/-- **C3 (amended).** For the mapping-shaped results the log records the
success line for key `row-1` and the aggregate count line, and no
secondary line echoing the created-record name `SINV-0007` from the
nested response. -/
theorem postResults_map_amended :
    (postResultsHandler postMapExample).log =
      [("Invoice row-1 posted successfully", "success"),
       ("Successfully posted 1 invoice(s)", "success")] ∧
    (postResultsHandler postMapExample).lastInvoiceList = ["row-1"] := by
  decide

/-! ### JSON generation response handling
(`generateJsonWithValidation`, script.js lines 448–467)

```js
if (data.error) {
  if (data.validation_errors && !skipValidation) {
    addActivityLog('Validation errors found during JSON generation. Please fix them first.', 'error');
    currentValidationSession = data.session_id;
    getValidationReport();
    return;
  }
  addActivityLog(data.error, 'error');
  return;
}
```

The handler is modelled as a function of the skip flag, the prior
session state and the response, returning the log entries appended, the
new session state, the report fetch issued (via
`getValidationReportRequest`), and the updated control state. -/

/-- Body of the `/generate_json` JSON response; `validation_errors`
records the truthiness of that field. -/
structure GenResponse where
  error : Option String
  validation_errors : Bool
  session_id : Option String
  invoices : Option JVal

/-- Artifacts of the generation response handler. -/
structure GenOutcome where
  log : List (String × String)
  session : Option String
  reportFetch : Option String
  generatedInvoices : Option JVal
  postEnabled : Bool
  downloadEnabled : Bool
  validationPanelHidden : Bool

/-- The `.then(data => …)` handler of the generation call, with
`skip` = the `skipValidation` argument and `sess0` = the prior
`currentValidationSession`. -/
def generateJsonHandler (skip : Bool) (sess0 : Option String)
    (resp : GenResponse) : GenOutcome :=
  match resp.error with
  | some e =>
    if resp.validation_errors && !skip then
      { log := [("Validation errors found during JSON generation. Please fix them first.",
          "error")],
        session := resp.session_id,
        reportFetch := getValidationReportRequest resp.session_id,
        generatedInvoices := none,
        postEnabled := false, downloadEnabled := false, validationPanelHidden := false }
    else
      { log := [(e, "error")], session := sess0, reportFetch := none,
        generatedInvoices := none,
        postEnabled := false, downloadEnabled := false, validationPanelHidden := false }
  | none =>
    { log := [("JSON generated successfully.", "success")], session := sess0,
      reportFetch := none, generatedInvoices := resp.invoices,
      postEnabled := true, downloadEnabled := true, validationPanelHidden := true }

/-- **C4.** For a generation response carrying an error together with
validation-error information and a session id: with the skip flag unset
the handler logs exactly the distinct validation-blocked message (not the
raw error), stores the response's `session_id` as the current validation
session and immediately issues the report fetch for it; with the skip
flag set it logs exactly the raw error, leaves the session untouched and
fetches nothing. -/
theorem generate_validation_blocked (sess0 : Option String) (resp : GenResponse)
    (e s : String) (he : resp.error = some e) (hv : resp.validation_errors = true)
    (hs : resp.session_id = some s) (hne : s.isEmpty = false) :
    (generateJsonHandler false sess0 resp).log =
      [("Validation errors found during JSON generation. Please fix them first.",
        "error")] ∧
    (generateJsonHandler false sess0 resp).session = some s ∧
    (generateJsonHandler false sess0 resp).reportFetch = some s ∧
    (generateJsonHandler true sess0 resp).log = [(e, "error")] ∧
    (generateJsonHandler true sess0 resp).session = sess0 ∧
    (generateJsonHandler true sess0 resp).reportFetch = none := by
  refine ⟨?_, ?_, ?_, ?_, ?_, ?_⟩ <;>
    simp [generateJsonHandler, he, hv, hs, getValidationReportRequest, hne]

/-- Witness for C4 at a concrete blocked response. -/
theorem generate_validation_blocked_witness :
    (generateJsonHandler false none
        { error := some "Generation failed", validation_errors := true,
          session_id := some "abc123", invoices := none }).log =
      [("Validation errors found during JSON generation. Please fix them first.",
        "error")] ∧
    (generateJsonHandler false none
        { error := some "Generation failed", validation_errors := true,
          session_id := some "abc123", invoices := none }).session = some "abc123" ∧
    (generateJsonHandler false none
        { error := some "Generation failed", validation_errors := true,
          session_id := some "abc123", invoices := none }).reportFetch = some "abc123" ∧
    (generateJsonHandler true none
        { error := some "Generation failed", validation_errors := true,
          session_id := some "abc123", invoices := none }).log =
      [("Generation failed", "error")] ∧
    (generateJsonHandler true none
        { error := some "Generation failed", validation_errors := true,
          session_id := some "abc123", invoices := none }).session = none ∧
    (generateJsonHandler true none
        { error := some "Generation failed", validation_errors := true,
          session_id := some "abc123", invoices := none }).reportFetch = none :=
  generate_validation_blocked none
    { error := some "Generation failed", validation_errors := true,
      session_id := some "abc123", invoices := none }
    "Generation failed" "abc123" rfl rfl rfl (by decide)
